import Mathlib

/-!
Shallow embedding of `skills/nano-banana-pro/scripts/generate_image.py`, a CLI
that calls a remote image-generation API, writes resulting PNG files, and for
batch runs emits a `prompts.json` sidecar and an HTML gallery.

The embedding models the script's `main` as a pure function from the parsed
arguments plus an explicit world (environment variable, wall-clock timestamp,
current directory, the result of opening the input image, and the per-call
results of the remote API) to a record of the observable outcome: exit status
(or an unhandled `TypeError`), directories created, PNG write events, the
`prompts.json` payload, the gallery payload, and the stdout/stderr lines.

Remote responses are lists of parts; a part is a text fragment or inline image
bytes, the latter modelled as either decodable (with the decoded pixel mode) or
undecodable (carrying the exception text raised by `base64.b64decode` /
`PIL.Image.open`, both of which sit inside the per-iteration `try` block).
-/

set_option linter.unusedVariables false

namespace NanoBanana

/-- Python truthiness of an optional string: `None` and `""` are falsy. -/
def strOptTruthy : Option String → Bool
  | some s => s != ""
  | none => false

/-- Mirrors `get_api_key`: the `--api-key` value if truthy, else the
`GEMINI_API_KEY` environment variable. -/
def get_api_key (provided : Option String) (env : Option String) : Option String :=
  match provided with
  | some k => if k != "" then some k else env
  | none => env

/-- Whether a POSIX path string is absolute (`Path.is_absolute`). -/
def pathIsAbs (s : String) : Bool :=
  match s.data with
  | c :: _ => c = '/'
  | [] => false

/-- Joining of a path with a relative component (`Path.__truediv__` as used by
the script, which only joins with relative right-hand sides). -/
def pathJoin (p q : String) : String :=
  if p == "" then q
  else if p == "." then q
  else if p.data.getLast? == some '/' then p ++ q
  else p ++ "/" ++ q

/-- Character lists between slashes. -/
def splitSlash : List Char → List (List Char)
  | [] => [[]]
  | c :: rest =>
      if c = '/' then [] :: splitSlash rest
      else
        match splitSlash rest with
        | [] => [[c]]
        | g :: gs => (c :: g) :: gs

/-- Non-empty, non-dot components of a path, as in `PurePosixPath.parts`
(minus a leading root). -/
def pathParts (s : String) : List String :=
  ((splitSlash s.data).map (fun l => String.mk l)).filter (fun c => c != "" && c != ".")

/-- Final component of a path (`Path.name`); empty for a root or empty path. -/
def pathName (s : String) : String :=
  (pathParts s).getLast?.getD ""

/-- Components interleaved with slashes. -/
def joinSlash : List String → String
  | [] => ""
  | [x] => x
  | x :: xs => x ++ "/" ++ joinSlash xs

/-- Parent directory of a path (`Path.parent`). -/
def pathParent (s : String) : String :=
  let ps := pathParts s
  if ps.length ≤ 1 then (if pathIsAbs s then "/" else ".")
  else (if pathIsAbs s then "/" else "") ++ joinSlash ps.dropLast

/-- Absolutization of a path against the current directory (`Path.resolve`,
ignoring symlink and dot-segment normalization, which the script never relies
on). -/
def resolveP (cwd p : String) : String :=
  if pathIsAbs p then p else pathJoin cwd p

/-- Zero-padded rendering of a positive index, as in the format `{:03d}`. -/
def pad3 (n : Nat) : String :=
  if n < 10 then "00" ++ toString n
  else if n < 100 then "0" ++ toString n
  else toString n

/-- Output resolutions accepted by `--resolution`. -/
inductive Res
  | r1K
  | r2K
  | r4K
deriving DecidableEq

/-- String form of a resolution, as the CLI spells it. -/
def Res.str : Res → String
  | .r1K => "1K"
  | .r2K => "2K"
  | .r4K => "4K"

/-- Parsed command-line arguments of the script. `count` is an `Int` because
`argparse` with `type=int` accepts negative values. -/
structure Args where
  prompt : String
  filename : Option String
  inputImage : Option String
  resolution : Res
  aspectRatio : String
  count : Int
  outDir : Option String
  model : String
  apiKey : Option String
  noGallery : Bool
deriving DecidableEq

/-- Pixel mode of a decoded inline image, distinguishing the three branches of
the RGB conversion before saving. -/
inductive ImgMode
  | rgba
  | rgb
  | other
deriving DecidableEq

/-- Inline image bytes of a response part: `.ok mode` when they decode to an
image of the given pixel mode, `.error msg` when `base64.b64decode` or
`PIL.Image.open` raises with message `msg`. -/
inductive ImgData
  | ok (m : ImgMode)
  | error (e : String)
deriving DecidableEq

/-- A part of a remote response: a text fragment, or inline image data. -/
inductive Part
  | text (s : String)
  | inlineData (d : ImgData)
deriving DecidableEq

/-- A remote response: the ordered list of its parts. -/
structure Response where
  parts : List Part
deriving DecidableEq

/-- The world a run interacts with: environment credential, timestamp used for
the output directory name, current working directory, the result of opening
the input image (its dimensions on success), and the result of each remote
call by iteration index. -/
structure World where
  env : Option String
  timestamp : String
  cwd : String
  inputImage : Except String (Nat × Nat)
  responses : Nat → Except String Response

/-- Metadata entry appended to `generated_images` for each saved image. -/
structure GeneratedImage where
  filename : String
  path : String
  prompt : String
  resolution : Res
  aspectRatio : String
  model : String
  modelText : Option String
deriving DecidableEq

/-- One object of the `prompts.json` array (the `generated_images` entry minus
its absolute `path`). -/
structure PromptEntry where
  filename : String
  prompt : String
  resolution : Res
  aspectRatio : String
  model : String
  modelText : Option String
deriving DecidableEq

/-- Projection from a generated-image record to its `prompts.json` object. -/
def toPromptEntry (g : GeneratedImage) : PromptEntry :=
  { filename := g.filename
    prompt := g.prompt
    resolution := g.resolution
    aspectRatio := g.aspectRatio
    model := g.model
    modelText := g.modelText }

/-- The fields of one image dict that `generate_gallery_html` reads. -/
structure GalleryImage where
  filename : String
  prompt : String
  resolution : String
  model : String
deriving DecidableEq

/-- Projection from a generated-image record to the fields the gallery reads. -/
def toGalleryImage (g : GeneratedImage) : GalleryImage :=
  { filename := g.filename
    prompt := g.prompt
    resolution := g.resolution.str
    model := g.model }

/-- Per-character expansion of Python `html.escape` (with quoting). -/
def escChar (c : Char) : String :=
  if c = '&' then "&amp;"
  else if c = '<' then "&lt;"
  else if c = '>' then "&gt;"
  else if c = '"' then "&quot;"
  else if c = Char.ofNat 39 then "&#x27;"
  else String.singleton c

/-- Escape a character list by expanding each character. -/
def escapeChars : List Char → String
  | [] => ""
  | c :: cs => escChar c ++ escapeChars cs

/-- Python `html.escape(s)`: replaces `&`, `<`, `>`, `"` and the apostrophe by
their character references. -/
def htmlEscape (s : String) : String := escapeChars s.data

/-- The `alt` text of a gallery card: the escaped 50-character prompt prefix,
with an ellipsis when the prompt is longer. -/
def promptPreview (img : GalleryImage) : String :=
  htmlEscape (String.mk (img.prompt.data.take 50)) ++
    (if 50 < img.prompt.data.length then "..." else "")

/-- The five escaped fragments interpolated into one gallery card, in template
order: `safe_filename`, `prompt_preview`, `safe_prompt`, `safe_resolution`,
`safe_model`. -/
def galleryPieces (img : GalleryImage) : List String :=
  [htmlEscape img.filename, promptPreview img, htmlEscape img.prompt,
   htmlEscape img.resolution, htmlEscape img.model]

/-- One card of the HTML gallery, as produced by the f-string in
`generate_gallery_html`. -/
def galleryCard (img : GalleryImage) : String :=
  "\n        <div class=\"card\">\n            <img src=\"" ++ htmlEscape img.filename ++
  "\" alt=\"" ++ promptPreview img ++
  "\">\n            <div class=\"info\">\n                <div class=\"prompt\">" ++
  htmlEscape img.prompt ++
  "</div>\n                <div class=\"meta\">" ++ htmlEscape img.resolution ++
  " ‚Ä¢ " ++ htmlEscape img.model ++
  "</div>\n            </div>\n        </div>\n"

/-- The fixed page header of the gallery (doctype, styles, opening of the
grid container). -/
def galleryHeader : String :=
  "<!DOCTYPE html>\n<html>\n<head>\n    <title>Generated Images</title>\n    <style>\n" ++
  "        body \x7b font-family: system-ui, sans-serif; background: #1a1a2e; color: #eee; padding: 20px; \x7d\n" ++
  "        h1 \x7b text-align: center; color: #ffd700; \x7d\n" ++
  "        .gallery \x7b display: grid; grid-template-columns: repeat(auto-fill, minmax(300px, 1fr)); gap: 20px; \x7d\n" ++
  "        .card \x7b background: #16213e; border-radius: 12px; overflow: hidden; box-shadow: 0 4px 6px rgba(0,0,0,0.3); \x7d\n" ++
  "        .card img \x7b width: 100%; height: auto; display: block; \x7d\n" ++
  "        .card .info \x7b padding: 12px; \x7d\n" ++
  "        .card .prompt \x7b font-size: 14px; color: #aaa; word-wrap: break-word; \x7d\n" ++
  "        .card .meta \x7b font-size: 12px; color: #666; margin-top: 8px; \x7d\n" ++
  "    </style>\n</head>\n<body>\n    <h1>üçå Nano Banana Pro Gallery</h1>\n    <div class=\"gallery\">\n"

/-- The fixed page footer of the gallery. -/
def galleryFooter : String := "\n    </div>\n</body>\n</html>\n"

/-- Full content of `index.html` as produced by `generate_gallery_html`. -/
def generate_gallery_html (images : List GalleryImage) : String :=
  galleryHeader ++ String.join (images.map galleryCard) ++ galleryFooter

/-- Accumulator of the `for part in response.parts` loop: the running
`model_text`, the `image_saved` flag, stdout lines printed, PNG write events,
appended `generated_images` entries, whether the loop ran to completion
(`ok = false` means a part raised), and the raised message. -/
structure PartsAcc where
  modelText : Option String
  imageSaved : Bool
  stdout : List String
  writes : List String
  images : List GeneratedImage
  ok : Bool
  err : Option String
deriving DecidableEq

/-- Initial accumulator for processing one response. -/
def initAcc : PartsAcc :=
  { modelText := none, imageSaved := false, stdout := [], writes := [],
    images := [], ok := true, err := none }

/-- The `for part in response.parts` loop. A text part updates `model_text`
and prints it; a decodable inline part saves a PNG at `outPath` and appends a
metadata entry capturing the current `model_text`; an undecodable inline part
raises, ending the loop with the effects so far intact. -/
def processParts (mk : Option String → GeneratedImage) (outPath : String) :
    List Part → PartsAcc → PartsAcc
  | [], acc => acc
  | .text s :: rest, acc =>
      processParts mk outPath rest
        { acc with modelText := some s,
                   stdout := acc.stdout ++ ["Model response: " ++ s] }
  | .inlineData (.error e) :: _, acc =>
      { acc with ok := false, err := some e }
  | .inlineData (.ok _) :: rest, acc =>
      processParts mk outPath rest
        { acc with imageSaved := true,
                   writes := acc.writes ++ [outPath],
                   images := acc.images ++ [mk acc.modelText] }

/-- Context shared by all iterations of the generation loop. -/
structure IterCtx where
  count : Int
  prompt : String
  aspectRatio : String
  model : String
  editing : Bool
  outRes : Res
  outputDir : String
  cwd : String
  filenameArg : Option String

/-- Output path of iteration `i`: batch mode uses the zero-padded sequential
name under the output directory; single mode uses the caller's filename
(joined to the output directory when relative) or `image.png` under the
output directory. -/
def iterOutputPath (ctx : IterCtx) (i : Nat) : String :=
  if 1 < ctx.count then
    pathJoin ctx.outputDir ("image-" ++ pad3 (i + 1) ++ ".png")
  else if strOptTruthy ctx.filenameArg then
    let f := ctx.filenameArg.getD ""
    if pathIsAbs f then f else pathJoin ctx.outputDir f
  else
    pathJoin ctx.outputDir "image.png"

/-- Metadata entry built at save time for the image written to `outPath`,
capturing the given current `model_text`. -/
def mkGenImage (ctx : IterCtx) (outPath : String) (mt : Option String) : GeneratedImage :=
  { filename := pathName outPath
    path := resolveP ctx.cwd outPath
    prompt := ctx.prompt
    resolution := ctx.outRes
    aspectRatio := ctx.aspectRatio
    model := ctx.model
    modelText := mt }

/-- The remote request issued by an iteration: the model, whether the contents
include the input image, and the `ImageConfig` kwargs (`image_size` always,
`aspect_ratio` only in generation mode). -/
structure Request where
  model : String
  editing : Bool
  imageSize : Option Res
  aspectRatio : Option String
deriving DecidableEq

/-- The request every iteration of a run sends, determined by the context. -/
def reqOf (ctx : IterCtx) : Request :=
  { model := ctx.model
    editing := ctx.editing
    imageSize := some ctx.outRes
    aspectRatio := if ctx.editing then none else some ctx.aspectRatio }

/-- Observable effects of one iteration of the generation loop. `exitNow` is
set when the iteration calls `sys.exit(1)` (single-image mode only). -/
structure IterOut where
  stdout : List String
  stderr : List String
  request : Request
  writes : List String
  images : List GeneratedImage
  exitNow : Bool
deriving DecidableEq

/-- One iteration of the generation loop: computes the output path, prints the
progress lines, issues the request, and either reports the call's exception,
or processes the response parts — saving images, then reporting success (with
the `MEDIA:` token in single mode) or the absence of any image part. -/
def runIteration (ctx : IterCtx) (i : Nat) (resp : Except String Response) : IterOut :=
  let outPath := iterOutputPath ctx i
  let preLines :=
    (if 1 < ctx.count then
      ["\n[" ++ toString (i + 1) ++ "/" ++ toString ctx.count ++ "] Generating..."]
     else []) ++
    [if ctx.editing then
      "Editing image with resolution " ++ ctx.outRes.str ++ "..."
     else
      "Generating image with resolution " ++ ctx.outRes.str ++ ", aspect ratio " ++
        ctx.aspectRatio ++ "..."]
  let req := reqOf ctx
  match resp with
  | .error e =>
      { stdout := preLines
        stderr := ["Error generating image: " ++ e]
        request := req
        writes := []
        images := []
        exitNow := decide (ctx.count = 1) }
  | .ok r =>
      let acc := processParts (mkGenImage ctx outPath) outPath r.parts initAcc
      if acc.ok then
        if acc.imageSaved then
          { stdout := preLines ++ acc.stdout ++
              ["Image saved: " ++ resolveP ctx.cwd outPath] ++
              (if ctx.count = 1 then ["MEDIA: " ++ resolveP ctx.cwd outPath] else [])
            stderr := []
            request := req
            writes := acc.writes
            images := acc.images
            exitNow := false }
        else
          { stdout := preLines ++ acc.stdout
            stderr := ["Error: No image was generated in response " ++ toString (i + 1) ++ "."]
            request := req
            writes := acc.writes
            images := acc.images
            exitNow := decide (ctx.count = 1) }
      else
        { stdout := preLines ++ acc.stdout
          stderr := ["Error generating image: " ++ (acc.err.getD "")]
          request := req
          writes := acc.writes
          images := acc.images
          exitNow := decide (ctx.count = 1) }

/-- Accumulated effects of the generation loop. -/
structure LoopAcc where
  stdout : List String
  stderr : List String
  requests : List Request
  pngWrites : List String
  images : List GeneratedImage
deriving DecidableEq

/-- Merge one iteration's effects into the loop accumulator. -/
def mergeIter (acc : LoopAcc) (o : IterOut) : LoopAcc :=
  { stdout := acc.stdout ++ o.stdout
    stderr := acc.stderr ++ o.stderr
    requests := acc.requests ++ [o.request]
    pngWrites := acc.pngWrites ++ o.writes
    images := acc.images ++ o.images }

/-- The `for i in range(args.count)` loop; the boolean is true when an
iteration exited the process (single-image failure). -/
def runIters (ctx : IterCtx) (resps : Nat → Except String Response) :
    List Nat → LoopAcc → LoopAcc × Bool
  | [], acc => (acc, false)
  | i :: rest, acc =>
      if (runIteration ctx i (resps i)).exitNow then
        (mergeIter acc (runIteration ctx i (resps i)), true)
      else runIters ctx resps rest (mergeIter acc (runIteration ctx i (resps i)))

/-- Process outcome: a `sys.exit` status (0 when `main` returns normally), or
an unhandled `TypeError`. -/
inductive RunOutcome
  | exit (code : Nat)
  | typeError
deriving DecidableEq

/-- Observable result of a run. -/
structure RunResult where
  outcome : RunOutcome
  stdout : List String
  stderr : List String
  dirsCreated : List String
  requests : List Request
  pngWrites : List String
  generatedImages : List GeneratedImage
  promptsJson : Option (String × List PromptEntry)
  galleryWrite : Option (String × String)
deriving DecidableEq

/-- A result for the early error exits that happen before any directory,
network or file activity. -/
def earlyExit (errs : List String) : RunResult :=
  { outcome := .exit 1, stdout := [], stderr := errs, dirsCreated := [],
    requests := [], pngWrites := [], generatedImages := [], promptsJson := none,
    galleryWrite := none }

/-- Output-directory computation: with a truthy `--out-dir`, a fresh
`nano-banana-<timestamp>` subdirectory beneath it; otherwise the parent of
`--filename` — which is `Path(None)` and raises `TypeError` when no filename
was given. -/
def outputDirSetup (args : Args) (ts : String) : Except Unit String :=
  if strOptTruthy args.outDir then
    .ok (pathJoin (args.outDir.getD "") ("nano-banana-" ++ ts))
  else
    match args.filename with
    | none => .error ()
    | some f => .ok (pathParent f)

/-- Input-image stage: on a truthy `--input-image`, opening the file either
fails (error message) or yields dimensions; with the default `1K` resolution
the output resolution is recomputed from the longer edge. Returns whether an
input image is in use, the output resolution, and the lines printed. -/
def loadInputStage (args : Args) (w : World) : Except String (Bool × Res × List String) :=
  if strOptTruthy args.inputImage then
    match w.inputImage with
    | .error e => .error e
    | .ok (wd, ht) =>
        let l0 := "Loaded input image: " ++ args.inputImage.getD ""
        if args.resolution = .r1K then
          let m := max wd ht
          let r := if 3000 ≤ m then Res.r4K else if 1500 ≤ m then Res.r2K else Res.r1K
          .ok (true, r,
            [l0, "Auto-detected resolution: " ++ r.str ++ " (from input " ++
              toString wd ++ "x" ++ toString ht ++ ")"])
        else
          .ok (true, args.resolution, [l0])
  else
    .ok (false, args.resolution, [])

/-- The effective resolution a run sends: the auto-detected one when an input
image is in use and the requested resolution is the default `1K`, else the
requested one. -/
def effRes (args : Args) (w : World) : Res :=
  if strOptTruthy args.inputImage then
    match w.inputImage with
    | .ok (wd, ht) =>
        if args.resolution = .r1K then
          (if 3000 ≤ max wd ht then Res.r4K else if 1500 ≤ max wd ht then Res.r2K else Res.r1K)
        else args.resolution
    | .error _ => args.resolution
  else args.resolution

/-- Iteration context assembled by `main` once the pre-loop stages succeed. -/
def ctxOf (args : Args) (w : World) (outputDir : String) (editing : Bool) (outRes : Res) :
    IterCtx :=
  { count := args.count
    prompt := args.prompt
    aspectRatio := args.aspectRatio
    model := args.model
    editing := editing
    outRes := outRes
    outputDir := outputDir
    cwd := w.cwd
    filenameArg := args.filename }

/-- Result of a run that exited from inside the generation loop (single-image
failure): exit status 1 with the effects accumulated so far. -/
def loopExitResult (outputDir : String) (acc : LoopAcc) : RunResult :=
  { outcome := .exit 1, stdout := acc.stdout, stderr := acc.stderr,
    dirsCreated := [outputDir], requests := acc.requests,
    pngWrites := acc.pngWrites, generatedImages := acc.images,
    promptsJson := none, galleryWrite := none }

/-- Result of a batch run in which no image succeeded: the no-images error and
exit status 1. -/
def batchFailResult (outputDir : String) (acc : LoopAcc) : RunResult :=
  { outcome := .exit 1, stdout := acc.stdout,
    stderr := acc.stderr ++ ["\nError: No images were successfully generated."],
    dirsCreated := [outputDir], requests := acc.requests,
    pngWrites := acc.pngWrites, generatedImages := acc.images,
    promptsJson := none, galleryWrite := none }

/-- Result of a batch run with at least one success: `prompts.json` is
written, the gallery unless suppressed, the final tally line is printed, and
the process exits 0. -/
def batchOkResult (args : Args) (outputDir : String) (acc : LoopAcc) : RunResult :=
  let promptsPath := pathJoin outputDir "prompts.json"
  let galleryPath := pathJoin outputDir "index.html"
  { outcome := .exit 0
    stdout := acc.stdout ++ ["\nMetadata saved: " ++ promptsPath] ++
      (if args.noGallery then [] else ["Gallery saved: " ++ galleryPath]) ++
      ["\nGenerated " ++ toString acc.images.length ++ "/" ++ toString args.count ++
        " images in " ++ outputDir]
    stderr := acc.stderr
    dirsCreated := [outputDir]
    requests := acc.requests
    pngWrites := acc.pngWrites
    generatedImages := acc.images
    promptsJson := some (promptsPath, acc.images.map toPromptEntry)
    galleryWrite := if args.noGallery then none
      else some (galleryPath, generate_gallery_html (acc.images.map toGalleryImage)) }

/-- Result of a single-image run whose loop completed without exiting: `main`
returns and the process exits 0. -/
def singleDoneResult (outputDir : String) (acc : LoopAcc) : RunResult :=
  { outcome := .exit 0, stdout := acc.stdout, stderr := acc.stderr,
    dirsCreated := [outputDir], requests := acc.requests,
    pngWrites := acc.pngWrites, generatedImages := acc.images,
    promptsJson := none, galleryWrite := none }

/-- Result of a run whose input image failed to open: the error is reported
and the process exits 1, with the output directory already created. -/
def inputFailResult (outputDir e : String) : RunResult :=
  { outcome := .exit 1, stdout := [],
    stderr := ["Error loading input image: " ++ e],
    dirsCreated := [outputDir], requests := [], pngWrites := [],
    generatedImages := [], promptsJson := none, galleryWrite := none }

/-- The script's `main`: argument validation, credential resolution, output
directory setup, optional input-image loading, the generation loop, and the
batch metadata/gallery stage. -/
def main (args : Args) (w : World) : RunResult :=
  if 1 < args.count ∧ strOptTruthy args.outDir = false then
    earlyExit ["Error: --out-dir is required when --count > 1"]
  else if args.count = 1 ∧ strOptTruthy args.filename = false ∧
      strOptTruthy args.outDir = false then
    earlyExit ["Error: --filename or --out-dir is required"]
  else if strOptTruthy (get_api_key args.apiKey w.env) = false then
    earlyExit ["Error: No API key provided.", "Please either:",
      "  1. Provide --api-key argument", "  2. Set GEMINI_API_KEY environment variable"]
  else
    match outputDirSetup args w.timestamp with
    | .error _ =>
        { outcome := .typeError, stdout := [], stderr := [], dirsCreated := [],
          requests := [], pngWrites := [], generatedImages := [],
          promptsJson := none, galleryWrite := none }
    | .ok outputDir =>
        match loadInputStage args w with
        | .error e => inputFailResult outputDir e
        | .ok (editing, outRes, lines) =>
            let ctx := ctxOf args w outputDir editing outRes
            let p := runIters ctx w.responses (List.range args.count.toNat)
              { stdout := lines, stderr := [], requests := [], pngWrites := [], images := [] }
            if p.2 then
              loopExitResult outputDir p.1
            else if 1 < args.count then
              if p.1.images = [] then batchFailResult outputDir p.1
              else batchOkResult args outputDir p.1
            else
              singleDoneResult outputDir p.1

/-- Whether a part is inline image data that decodes successfully. -/
def isOkImagePart : Part → Bool
  | .inlineData (.ok _) => true
  | _ => false

/-- Whether a part is inline image data whose decoding raises. -/
def isBadImagePart : Part → Bool
  | .inlineData (.error _) => true
  | _ => false

/-- Whether every inline part of a list decodes (the parts loop runs to
completion). -/
def partsClean (l : List Part) : Bool := l.all (fun q => !isBadImagePart q)

/-- Whether some part of a list is a decodable image. -/
def hasImagePart (l : List Part) : Bool := l.any isOkImagePart

/-- The last text fragment of a part list, starting from a previously recorded
one. -/
def lastTextFrom (t : Option String) : List Part → Option String
  | [] => t
  | .text s :: r => lastTextFrom (some s) r
  | _ :: r => lastTextFrom t r

/-- The last text fragment of a part list, if any. -/
def lastText (l : List Part) : Option String := lastTextFrom none l

/-- Whether a remote call returned a response (as opposed to raising). -/
def respOk : Except String Response → Bool
  | .ok _ => true
  | .error _ => false

theorem processParts_nil (mk : Option String → GeneratedImage) (p : String) (acc : PartsAcc) :
    processParts mk p [] acc = acc := rfl

theorem processParts_text (mk : Option String → GeneratedImage) (p : String) (s : String)
    (l : List Part) (acc : PartsAcc) :
    processParts mk p (Part.text s :: l) acc =
      processParts mk p l { acc with modelText := some s, stdout := acc.stdout ++ ["Model response: " ++ s] } := rfl

theorem processParts_bad (mk : Option String → GeneratedImage) (p : String) (e : String)
    (l : List Part) (acc : PartsAcc) :
    processParts mk p (Part.inlineData (ImgData.error e) :: l) acc =
      { acc with ok := false, err := some e } := rfl

theorem processParts_good (mk : Option String → GeneratedImage) (p : String) (m : ImgMode)
    (l : List Part) (acc : PartsAcc) :
    processParts mk p (Part.inlineData (ImgData.ok m) :: l) acc =
      processParts mk p l { acc with imageSaved := true, writes := acc.writes ++ [p], images := acc.images ++ [mk acc.modelText] } := rfl

theorem partsClean_tail {q : Part} {l : List Part} (h : partsClean (q :: l) = true) :
    partsClean l = true := by
  rw [partsClean, List.all_cons, Bool.and_eq_true] at h
  exact h.2

theorem partsClean_not_bad {e : String} {l : List Part} :
    partsClean (Part.inlineData (ImgData.error e) :: l) ≠ true := by
  rw [partsClean, List.all_cons]
  simp [isBadImagePart]

theorem hasImagePart_tail {q : Part} {l : List Part} (h : hasImagePart (q :: l) = false) :
    hasImagePart l = false := by
  rw [hasImagePart, List.any_cons, Bool.or_eq_false_iff] at h
  exact h.2

theorem hasImagePart_not_good {m : ImgMode} {l : List Part} :
    hasImagePart (Part.inlineData (ImgData.ok m) :: l) ≠ false := by
  rw [hasImagePart, List.any_cons]
  simp [isOkImagePart]

theorem processParts_writes_mem (mk : Option String → GeneratedImage) (p : String) :
    ∀ (l : List Part) (acc : PartsAcc) (q : String),
      q ∈ (processParts mk p l acc).writes → q ∈ acc.writes ∨ q = p := by
  intro l
  induction l with
  | nil => intro acc q hq; exact .inl hq
  | cons hd tl ih =>
    intro acc q hq
    cases hd with
    | text s =>
        rcases ih _ q hq with h | h
        · exact .inl h
        · exact .inr h
    | inlineData d =>
        cases d with
        | error e => exact .inl hq
        | ok m =>
            rcases ih _ q hq with h | h
            · rcases List.mem_append.mp h with h' | h'
              · exact .inl h'
              · exact .inr (List.mem_singleton.mp h')
            · exact .inr h

theorem processParts_writes_len (mk : Option String → GeneratedImage) (p : String) :
    ∀ (l : List Part) (acc : PartsAcc),
      acc.writes.length = acc.images.length →
      (processParts mk p l acc).writes.length = (processParts mk p l acc).images.length := by
  intro l
  induction l with
  | nil => intro acc h; exact h
  | cons hd tl ih =>
    intro acc h
    cases hd with
    | text s => exact ih _ h
    | inlineData d =>
        cases d with
        | error e => exact h
        | ok m => exact ih _ (by simp [h])

theorem processParts_ok_clean (mk : Option String → GeneratedImage) (p : String) :
    ∀ (l : List Part) (acc : PartsAcc),
      partsClean l = true → (processParts mk p l acc).ok = acc.ok := by
  intro l
  induction l with
  | nil => intro acc _; rfl
  | cons hd tl ih =>
    intro acc hc
    cases hd with
    | text s => rw [processParts_text]; exact ih _ (partsClean_tail hc)
    | inlineData d =>
        cases d with
        | error e => exact absurd hc partsClean_not_bad
        | ok m => rw [processParts_good]; exact ih _ (partsClean_tail hc)

theorem processParts_saved_of_none (mk : Option String → GeneratedImage) (p : String) :
    ∀ (l : List Part) (acc : PartsAcc),
      hasImagePart l = false → (processParts mk p l acc).imageSaved = acc.imageSaved := by
  intro l
  induction l with
  | nil => intro acc _; rfl
  | cons hd tl ih =>
    intro acc hc
    cases hd with
    | text s => rw [processParts_text]; exact ih _ (hasImagePart_tail hc)
    | inlineData d =>
        cases d with
        | error e => rw [processParts_bad]
        | ok m => exact absurd hc hasImagePart_not_good

theorem processParts_images_append (mk : Option String → GeneratedImage) (p : String) :
    ∀ (l : List Part) (acc : PartsAcc),
      ∃ tl, (processParts mk p l acc).images = acc.images ++ tl := by
  intro l
  induction l with
  | nil => intro acc; exact ⟨[], by simp [processParts_nil]⟩
  | cons hd tl ih =>
    intro acc
    cases hd with
    | text s =>
        rw [processParts_text]
        obtain ⟨t, ht⟩ := ih { acc with modelText := some s, stdout := acc.stdout ++ ["Model response: " ++ s] }
        exact ⟨t, ht⟩
    | inlineData d =>
        cases d with
        | error e => exact ⟨[], by simp [processParts_bad]⟩
        | ok m =>
            rw [processParts_good]
            obtain ⟨t, ht⟩ := ih { acc with imageSaved := true, writes := acc.writes ++ [p], images := acc.images ++ [mk acc.modelText] }
            exact ⟨mk acc.modelText :: t, by simpa using ht⟩

theorem processParts_image_text (mk : Option String → GeneratedImage) (p : String)
    (post : List Part) (m : ImgMode) :
    ∀ (pre : List Part) (acc : PartsAcc), partsClean pre = true → acc.ok = true →
      ((processParts mk p (pre ++ Part.inlineData (ImgData.ok m) :: post) acc).images)[acc.images.length + pre.countP (fun q => isOkImagePart q)]? =
        some (mk (lastTextFrom acc.modelText pre)) := by
  intro pre
  induction pre with
  | nil =>
    intro acc _ hok
    rw [List.nil_append, processParts_good]
    obtain ⟨t, ht⟩ := processParts_images_append mk p post { acc with imageSaved := true, writes := acc.writes ++ [p], images := acc.images ++ [mk acc.modelText] }
    simp only at ht
    rw [ht, List.append_assoc, List.countP_nil, Nat.add_zero,
      List.getElem?_append_right (Nat.le_refl _)]
    simp [lastTextFrom]
  | cons hd tl ih =>
    intro acc hc hok
    cases hd with
    | text s =>
        rw [List.cons_append, processParts_text]
        have h2 := ih { acc with modelText := some s, stdout := acc.stdout ++ ["Model response: " ++ s] } (partsClean_tail hc) hok
        simpa [List.countP_cons, isOkImagePart, lastTextFrom] using h2
    | inlineData d =>
        cases d with
        | error e => exact absurd hc partsClean_not_bad
        | ok mo =>
            rw [List.cons_append, processParts_good]
            have h2 := ih { acc with imageSaved := true, writes := acc.writes ++ [p], images := acc.images ++ [mk acc.modelText] } (partsClean_tail hc) hok
            simp only [lastTextFrom]
            simpa [List.countP_cons, isOkImagePart, Nat.add_assoc, Nat.add_comm,
              Nat.add_left_comm] using h2

theorem runIteration_request (ctx : IterCtx) (i : Nat) (resp : Except String Response) :
    (runIteration ctx i resp).request = reqOf ctx := by
  unfold runIteration
  cases resp with
  | error e => rfl
  | ok r =>
      dsimp only
      split
      · split
        · rfl
        · rfl
      · rfl

theorem runIteration_exitNow_count (ctx : IterCtx) (i : Nat) (resp : Except String Response)
    (hc : ctx.count ≠ 1) : (runIteration ctx i resp).exitNow = false := by
  unfold runIteration
  cases resp with
  | error e => simpa using hc
  | ok r =>
      dsimp only
      split
      · split
        · rfl
        · simpa using hc
      · simpa using hc

theorem runIteration_writes (ctx : IterCtx) (i : Nat) (resp : Except String Response) :
    (∀ q ∈ (runIteration ctx i resp).writes, q = iterOutputPath ctx i) ∧
    (runIteration ctx i resp).writes.length = (runIteration ctx i resp).images.length := by
  cases resp with
  | error e =>
      constructor
      · intro q hq
        simp only [runIteration] at hq
        exact absurd hq (List.not_mem_nil q)
      · rfl
  | ok r =>
      have hw : (runIteration ctx i (.ok r)).writes =
          (processParts (mkGenImage ctx (iterOutputPath ctx i)) (iterOutputPath ctx i) r.parts initAcc).writes := by
        unfold runIteration
        dsimp only
        split
        · split
          · rfl
          · rfl
        · rfl
      have him : (runIteration ctx i (.ok r)).images =
          (processParts (mkGenImage ctx (iterOutputPath ctx i)) (iterOutputPath ctx i) r.parts initAcc).images := by
        unfold runIteration
        dsimp only
        split
        · split
          · rfl
          · rfl
        · rfl
      constructor
      · intro q hq
        rw [hw] at hq
        rcases processParts_writes_mem _ _ r.parts initAcc q hq with h | h
        · simp [initAcc] at h
        · exact h
      · rw [hw, him]
        exact processParts_writes_len _ _ r.parts initAcc rfl

theorem runIteration_fail (ctx : IterCtx) (i : Nat) (resp : Except String Response)
    (hc : ctx.count = 1)
    (hf : (∃ e, resp = .error e) ∨
      (∃ r, resp = .ok r ∧ partsClean r.parts = true ∧ hasImagePart r.parts = false)) :
    (runIteration ctx i resp).exitNow = true := by
  rcases hf with ⟨e, rfl⟩ | ⟨r, rfl, hcl, hni⟩
  · unfold runIteration
    simp [hc]
  · unfold runIteration
    dsimp only
    have hok : (processParts (mkGenImage ctx (iterOutputPath ctx i)) (iterOutputPath ctx i) r.parts initAcc).ok = true :=
      processParts_ok_clean _ _ r.parts initAcc hcl
    have hsv : (processParts (mkGenImage ctx (iterOutputPath ctx i)) (iterOutputPath ctx i) r.parts initAcc).imageSaved = false := by
      rw [processParts_saved_of_none _ _ r.parts initAcc hni]
      rfl
    rw [if_pos hok, if_neg (by rw [hsv]; decide)]
    simp [hc]

theorem runIters_single (ctx : IterCtx) (resps : Nat → Except String Response) (acc : LoopAcc) :
    runIters ctx resps [0] acc =
      (mergeIter acc (runIteration ctx 0 (resps 0)), (runIteration ctx 0 (resps 0)).exitNow) := by
  unfold runIters
  by_cases h : (runIteration ctx 0 (resps 0)).exitNow = true
  · rw [if_pos h, h]
  · rw [if_neg h]
    rw [Bool.not_eq_true] at h
    rw [h]
    rfl

theorem runIters_no_exit (ctx : IterCtx) (resps : Nat → Except String Response)
    (hc : ctx.count ≠ 1) :
    ∀ (l : List Nat) (acc : LoopAcc), (runIters ctx resps l acc).2 = false := by
  intro l
  induction l with
  | nil => intro acc; rfl
  | cons i rest ih =>
    intro acc
    unfold runIters
    rw [runIteration_exitNow_count ctx i (resps i) hc]
    simp only [Bool.false_eq_true, if_false]
    exact ih _

theorem runIters_req_mem (ctx : IterCtx) (resps : Nat → Except String Response) :
    ∀ (l : List Nat) (acc : LoopAcc) (r : Request),
      r ∈ (runIters ctx resps l acc).1.requests → r ∈ acc.requests ∨ r = reqOf ctx := by
  intro l
  induction l with
  | nil => intro acc r hr; exact .inl hr
  | cons i rest ih =>
    intro acc r hr
    unfold runIters at hr
    have hmerge : r ∈ (mergeIter acc (runIteration ctx i (resps i))).requests →
        r ∈ acc.requests ∨ r = reqOf ctx := by
      intro h
      rcases List.mem_append.mp h with h' | h'
      · exact .inl h'
      · exact .inr ((List.mem_singleton.mp h').trans (runIteration_request ctx i (resps i)))
    split at hr
    · exact hmerge hr
    · rcases ih _ r hr with h | h
      · exact hmerge h
      · exact .inr h

theorem runIters_req_len (ctx : IterCtx) (resps : Nat → Except String Response)
    (hc : ctx.count ≠ 1) :
    ∀ (l : List Nat) (acc : LoopAcc),
      (runIters ctx resps l acc).1.requests.length = acc.requests.length + l.length := by
  intro l
  induction l with
  | nil => intro acc; rfl
  | cons i rest ih =>
    intro acc
    unfold runIters
    rw [runIteration_exitNow_count ctx i (resps i) hc]
    simp only [Bool.false_eq_true, if_false]
    rw [ih]
    simp [mergeIter]
    omega

theorem runIters_writes_mem (ctx : IterCtx) (resps : Nat → Except String Response) :
    ∀ (l : List Nat) (acc : LoopAcc) (q : String),
      q ∈ (runIters ctx resps l acc).1.pngWrites →
      q ∈ acc.pngWrites ∨ ∃ i, q ∈ (runIteration ctx i (resps i)).writes := by
  intro l
  induction l with
  | nil => intro acc q hq; exact .inl hq
  | cons i rest ih =>
    intro acc q hq
    unfold runIters at hq
    have hmerge : q ∈ (mergeIter acc (runIteration ctx i (resps i))).pngWrites →
        q ∈ acc.pngWrites ∨ ∃ j, q ∈ (runIteration ctx j (resps j)).writes := by
      intro h
      rcases List.mem_append.mp h with h' | h'
      · exact .inl h'
      · exact .inr ⟨i, h'⟩
    split at hq
    · exact hmerge hq
    · rcases ih _ q hq with h | h
      · exact hmerge h
      · exact .inr h

theorem loadInputStage_spec (args : Args) (w : World) (ed : Bool) (oR : Res) (ls : List String)
    (h : loadInputStage args w = .ok (ed, oR, ls)) :
    ed = strOptTruthy args.inputImage ∧ oR = effRes args w := by
  unfold loadInputStage at h
  unfold effRes
  by_cases hin : strOptTruthy args.inputImage = true
  · rw [if_pos hin] at h
    rw [if_pos hin]
    cases hw : w.inputImage with
    | error e => rw [hw] at h; cases h
    | ok dims =>
        rw [hw] at h
        obtain ⟨wd, hgt⟩ := dims
        dsimp only at h ⊢
        by_cases hres : args.resolution = Res.r1K
        · rw [if_pos hres] at h
          rw [if_pos hres]
          exact ⟨by cases h; rw [hin], by cases h; rfl⟩
        · rw [if_neg hres] at h
          rw [if_neg hres]
          exact ⟨by cases h; rw [hin], by cases h; rfl⟩
  · rw [if_neg hin] at h
    rw [if_neg hin]
    rw [Bool.not_eq_true] at hin
    exact ⟨by cases h; rw [hin], by cases h; rfl⟩

theorem main_loop_eq (args : Args) (w : World) (od : String) (ed : Bool) (oR : Res)
    (ls : List String)
    (h1 : ¬(1 < args.count ∧ strOptTruthy args.outDir = false))
    (h2 : ¬(args.count = 1 ∧ strOptTruthy args.filename = false ∧
        strOptTruthy args.outDir = false))
    (hk : strOptTruthy (get_api_key args.apiKey w.env) = true)
    (hd : outputDirSetup args w.timestamp = .ok od)
    (hi : loadInputStage args w = .ok (ed, oR, ls)) :
    main args w =
      (let ctx := ctxOf args w od ed oR
       let p := runIters ctx w.responses (List.range args.count.toNat)
         { stdout := ls, stderr := [], requests := [], pngWrites := [], images := [] }
       if p.2 then loopExitResult od p.1
       else if 1 < args.count then
         if p.1.images = [] then batchFailResult od p.1
         else batchOkResult args od p.1
       else singleDoneResult od p.1) := by
  unfold main
  rw [if_neg h1, if_neg h2, if_neg (by rw [hk]; decide), hd, hi]

theorem main_requests_shape (args : Args) (w : World) :
    ∀ r ∈ (main args w).requests,
      r = { model := args.model, editing := strOptTruthy args.inputImage,
            imageSize := some (effRes args w),
            aspectRatio := if strOptTruthy args.inputImage = true then none
              else some args.aspectRatio } := by
  intro r hr
  by_cases h1 : 1 < args.count ∧ strOptTruthy args.outDir = false
  · unfold main at hr
    rw [if_pos h1] at hr
    simp [earlyExit] at hr
  · by_cases h2 : args.count = 1 ∧ strOptTruthy args.filename = false ∧
        strOptTruthy args.outDir = false
    · unfold main at hr
      rw [if_neg h1, if_pos h2] at hr
      simp [earlyExit] at hr
    · by_cases h3 : strOptTruthy (get_api_key args.apiKey w.env) = false
      · unfold main at hr
        rw [if_neg h1, if_neg h2, if_pos h3] at hr
        simp [earlyExit] at hr
      · have hk : strOptTruthy (get_api_key args.apiKey w.env) = true := by
          cases hknd : strOptTruthy (get_api_key args.apiKey w.env) with
          | false => exact absurd hknd h3
          | true => rfl
        cases hd : outputDirSetup args w.timestamp with
        | error u =>
            unfold main at hr
            rw [if_neg h1, if_neg h2, if_neg h3, hd] at hr
            simp at hr
        | ok od =>
            cases hi : loadInputStage args w with
            | error e =>
                unfold main at hr
                rw [if_neg h1, if_neg h2, if_neg h3, hd, hi] at hr
                simp [inputFailResult] at hr
            | ok trip =>
                obtain ⟨ed, oR, ls⟩ := trip
                rw [main_loop_eq args w od ed oR ls h1 h2 hk hd hi] at hr
                dsimp only at hr
                have hspec := loadInputStage_spec args w ed oR ls hi
                have hreq : ∀ h : r ∈ (runIters (ctxOf args w od ed oR) w.responses
                    (List.range args.count.toNat)
                    { stdout := ls, stderr := [], requests := [], pngWrites := [], images := [] }).1.requests,
                    r = { model := args.model, editing := strOptTruthy args.inputImage,
                          imageSize := some (effRes args w),
                          aspectRatio := if strOptTruthy args.inputImage = true then none
                            else some args.aspectRatio } := by
                  intro h
                  rcases runIters_req_mem (ctxOf args w od ed oR) w.responses _ _ r h with h' | h'
                  · simp at h'
                  · rw [h']
                    rw [reqOf]
                    rw [hspec.1, hspec.2]
                    rfl
                rw [loopExitResult, batchFailResult, batchOkResult, singleDoneResult] at hr
                split at hr
                · exact hreq hr
                · split at hr
                  · split at hr
                    · exact hreq hr
                    · exact hreq hr
                  · exact hreq hr

def argsSingle : Args :=
  { prompt := "a cat", filename := some "out.png", inputImage := none,
    resolution := .r1K, aspectRatio := "1:1", count := 1, outDir := none,
    model := "m", apiKey := some "k", noGallery := false }

def worldSingle : World :=
  { env := none, timestamp := "20250101-120000", cwd := "/w",
    inputImage := .error "unused",
    responses := fun _ => .ok ⟨[.inlineData (.ok .rgb)]⟩ }

def argsEdit : Args :=
  { prompt := "make it sunset", filename := some "out.png",
    inputImage := some "photo.jpg", resolution := .r1K, aspectRatio := "1:1",
    count := 1, outDir := none, model := "m", apiKey := some "k",
    noGallery := false }

def worldEdit : World :=
  { env := none, timestamp := "20250101-120000", cwd := "/w",
    inputImage := .ok (3200, 1800),
    responses := fun _ => .ok ⟨[.inlineData (.ok .rgb)]⟩ }

/-- C3: for every run with an input image, every outgoing request carries the
effective resolution: recomputed from the image's longer edge when the caller
left the resolution at its default `1K` (4K when the edge is at least 3000
pixels, else 2K when at least 1500, else 1K), and the explicitly requested
resolution, regardless of dimensions, otherwise. -/
theorem claim_C3 (args : Args) (w : World) (wd hgt : Nat)
    (hin : strOptTruthy args.inputImage = true)
    (hload : w.inputImage = .ok (wd, hgt)) :
    ∀ r ∈ (main args w).requests,
      r.imageSize = some (if args.resolution = Res.r1K then
          (if 3000 ≤ max wd hgt then Res.r4K
           else if 1500 ≤ max wd hgt then Res.r2K else Res.r1K)
        else args.resolution) := by
  intro r hr
  rw [main_requests_shape args w r hr]
  unfold effRes
  rw [if_pos hin, hload]

theorem claim_C3_witness :
    ({ model := "m", editing := true, imageSize := some Res.r4K,
       aspectRatio := none } : Request).imageSize =
      some (if argsEdit.resolution = Res.r1K then
          (if 3000 ≤ max 3200 1800 then Res.r4K
           else if 1500 ≤ max 3200 1800 then Res.r2K else Res.r1K)
        else argsEdit.resolution) :=
  claim_C3 argsEdit worldEdit 3200 1800 (by decide) rfl
    { model := "m", editing := true, imageSize := some Res.r4K, aspectRatio := none }
    (by decide)

/-- C4: for every outgoing request, the aspect-ratio field is present in the
image configuration if and only if no input image was supplied, while the
resolution field is present in every request. -/
theorem claim_C4 (args : Args) (w : World) :
    ∀ r ∈ (main args w).requests,
      r.imageSize.isSome = true ∧
      r.aspectRatio = (if strOptTruthy args.inputImage = true then none
        else some args.aspectRatio) := by
  intro r hr
  rw [main_requests_shape args w r hr]
  exact ⟨rfl, rfl⟩

theorem claim_C4_witness :
    ({ model := "m", editing := false, imageSize := some Res.r1K,
       aspectRatio := some "1:1" } : Request).imageSize.isSome = true ∧
    ({ model := "m", editing := false, imageSize := some Res.r1K,
       aspectRatio := some "1:1" } : Request).aspectRatio =
      (if strOptTruthy argsSingle.inputImage = true then none
        else some argsSingle.aspectRatio) :=
  claim_C4 argsSingle worldSingle
    { model := "m", editing := false, imageSize := some Res.r1K, aspectRatio := some "1:1" }
    (by decide)

/-- C1: per-iteration generation failures (an exception during the remote
call, or a response with no image part) are fatal in single-image mode, where
the process exits non-zero; in batch mode every iteration runs (one request
per requested image) and the run exits non-zero exactly when zero images
succeeded, so a batch with at least one success exits 0. -/
theorem claim_C1 (args : Args) (w : World) (od : String) (ed : Bool) (oR : Res)
    (ls : List String)
    (h1 : ¬(1 < args.count ∧ strOptTruthy args.outDir = false))
    (h2 : ¬(args.count = 1 ∧ strOptTruthy args.filename = false ∧
        strOptTruthy args.outDir = false))
    (hk : strOptTruthy (get_api_key args.apiKey w.env) = true)
    (hd : outputDirSetup args w.timestamp = .ok od)
    (hi : loadInputStage args w = .ok (ed, oR, ls)) :
    (args.count = 1 →
      ((∃ e, w.responses 0 = .error e) ∨
       (∃ r, w.responses 0 = .ok r ∧ partsClean r.parts = true ∧
         hasImagePart r.parts = false)) →
      (main args w).outcome = .exit 1) ∧
    (1 < args.count →
      (main args w).requests.length = args.count.toNat ∧
      (main args w).outcome =
        .exit (if (main args w).generatedImages.isEmpty then 1 else 0)) := by
  have hm := main_loop_eq args w od ed oR ls h1 h2 hk hd hi
  constructor
  · intro hc hf
    rw [hm]
    dsimp only
    have hrange : List.range args.count.toNat = [0] := by rw [hc]; rfl
    rw [hrange, runIters_single]
    have hexit : (runIteration (ctxOf args w od ed oR) 0 (w.responses 0)).exitNow = true :=
      runIteration_fail _ 0 _ (by simp [ctxOf, hc]) hf
    rw [hexit, if_pos rfl]
    rfl
  · intro hc
    rw [hm]
    dsimp only
    have hcne : (ctxOf args w od ed oR).count ≠ 1 := by
      simp only [ctxOf]
      omega
    have hnoexit := runIters_no_exit (ctxOf args w od ed oR) w.responses hcne
      (List.range args.count.toNat)
      { stdout := ls, stderr := [], requests := [], pngWrites := [], images := [] }
    rw [hnoexit, if_neg (by decide), if_pos hc]
    constructor
    · have hlen := runIters_req_len (ctxOf args w od ed oR) w.responses hcne
        (List.range args.count.toNat)
        { stdout := ls, stderr := [], requests := [], pngWrites := [], images := [] }
      cases hcase : (runIters (ctxOf args w od ed oR) w.responses
          (List.range args.count.toNat)
          { stdout := ls, stderr := [], requests := [], pngWrites := [], images := [] }).1.images with
      | nil =>
          rw [if_pos rfl, batchFailResult]
          simpa using hlen
      | cons g gs =>
          rw [if_neg (by simp), batchOkResult]
          simpa using hlen
    · cases hcase : (runIters (ctxOf args w od ed oR) w.responses
          (List.range args.count.toNat)
          { stdout := ls, stderr := [], requests := [], pngWrites := [], images := [] }).1.images with
      | nil =>
          rw [if_pos rfl, batchFailResult]
          simp [hcase]
      | cons g gs =>
          rw [if_neg (by simp), batchOkResult]
          simp [hcase]

def worldFail : World :=
  { env := none, timestamp := "20250101-120000", cwd := "/w",
    inputImage := .error "unused", responses := fun _ => .error "boom" }

def argsBatch : Args :=
  { prompt := "a cat", filename := none, inputImage := none,
    resolution := .r1K, aspectRatio := "1:1", count := 2, outDir := some "root",
    model := "m", apiKey := some "k", noGallery := false }

def worldBatch : World :=
  { env := none, timestamp := "20250101-120000", cwd := "/w",
    inputImage := .error "unused",
    responses := fun _ => .ok ⟨[.inlineData (.ok .rgb)]⟩ }

theorem claim_C1_witness :
    (main argsSingle worldFail).outcome = .exit 1 ∧
    ((main argsBatch worldBatch).requests.length = (2 : Int).toNat ∧
     (main argsBatch worldBatch).outcome =
       .exit (if (main argsBatch worldBatch).generatedImages.isEmpty then 1 else 0)) :=
  ⟨(claim_C1 argsSingle worldFail "." false .r1K [] (by decide) (by decide) (by decide)
      rfl rfl).1 rfl (.inl ⟨"boom", rfl⟩),
   (claim_C1 argsBatch worldBatch "root/nano-banana-20250101-120000" false .r1K []
      (by decide) (by decide) (by decide) rfl rfl).2 (by decide)⟩

/-- C2: if count exceeds 1 and no output directory was given, or count is 1
and neither a filename nor an output directory was given, the process prints a
one-line error to standard error and exits non-zero before any network or
file activity, writing nothing. -/
theorem claim_C2 (args : Args) (w : World) :
    (1 < args.count → args.outDir = none →
      (main args w).outcome = .exit 1 ∧ (main args w).stderr.length = 1 ∧
      (main args w).stdout = [] ∧ (main args w).dirsCreated = [] ∧
      (main args w).requests = [] ∧ (main args w).pngWrites = [] ∧
      (main args w).promptsJson = none ∧ (main args w).galleryWrite = none) ∧
    (args.count = 1 → args.filename = none → args.outDir = none →
      (main args w).outcome = .exit 1 ∧ (main args w).stderr.length = 1 ∧
      (main args w).stdout = [] ∧ (main args w).dirsCreated = [] ∧
      (main args w).requests = [] ∧ (main args w).pngWrites = [] ∧
      (main args w).promptsJson = none ∧ (main args w).galleryWrite = none) := by
  constructor
  · intro hc hod
    have hm : main args w = earlyExit ["Error: --out-dir is required when --count > 1"] := by
      unfold main
      rw [if_pos ⟨hc, by rw [hod]; rfl⟩]
    rw [hm]
    exact ⟨rfl, rfl, rfl, rfl, rfl, rfl, rfl, rfl⟩
  · intro hc hf hod
    have h1 : ¬(1 < args.count ∧ strOptTruthy args.outDir = false) := by
      intro h
      omega
    have hm : main args w = earlyExit ["Error: --filename or --out-dir is required"] := by
      unfold main
      rw [if_neg h1, if_pos ⟨hc, by rw [hf]; rfl, by rw [hod]; rfl⟩]
    rw [hm]
    exact ⟨rfl, rfl, rfl, rfl, rfl, rfl, rfl, rfl⟩

def argsNoOut : Args :=
  { prompt := "a cat", filename := none, inputImage := none,
    resolution := .r1K, aspectRatio := "1:1", count := 3, outDir := none,
    model := "m", apiKey := some "k", noGallery := false }

def argsNoFile : Args :=
  { prompt := "a cat", filename := none, inputImage := none,
    resolution := .r1K, aspectRatio := "1:1", count := 1, outDir := none,
    model := "m", apiKey := some "k", noGallery := false }

theorem claim_C2_witness :
    ((main argsNoOut worldSingle).outcome = .exit 1 ∧
     (main argsNoOut worldSingle).stderr.length = 1 ∧
     (main argsNoOut worldSingle).stdout = [] ∧
     (main argsNoOut worldSingle).dirsCreated = [] ∧
     (main argsNoOut worldSingle).requests = [] ∧
     (main argsNoOut worldSingle).pngWrites = [] ∧
     (main argsNoOut worldSingle).promptsJson = none ∧
     (main argsNoOut worldSingle).galleryWrite = none) ∧
    ((main argsNoFile worldSingle).outcome = .exit 1 ∧
     (main argsNoFile worldSingle).stderr.length = 1 ∧
     (main argsNoFile worldSingle).stdout = [] ∧
     (main argsNoFile worldSingle).dirsCreated = [] ∧
     (main argsNoFile worldSingle).requests = [] ∧
     (main argsNoFile worldSingle).pngWrites = [] ∧
     (main argsNoFile worldSingle).promptsJson = none ∧
     (main argsNoFile worldSingle).galleryWrite = none) :=
  ⟨(claim_C2 argsNoOut worldSingle).1 (by decide) rfl,
   (claim_C2 argsNoFile worldSingle).2 rfl rfl rfl⟩

/-- C10: with count at most 0, argument validation passes; when an output
directory is given, the run creates the empty timestamped directory, performs
zero remote calls, writes nothing, and exits 0; when neither a filename nor an
output directory is given, the run reaches the output-directory computation
and raises an unhandled TypeError from `Path(None)`. -/
theorem claim_C10 (args : Args) (w : World) :
    (args.count ≤ 0 → strOptTruthy args.outDir = true →
      strOptTruthy (get_api_key args.apiKey w.env) = true → args.inputImage = none →
      (main args w).outcome = .exit 0 ∧
      (main args w).dirsCreated =
        [pathJoin (args.outDir.getD "") ("nano-banana-" ++ w.timestamp)] ∧
      (main args w).requests = [] ∧ (main args w).pngWrites = [] ∧
      (main args w).generatedImages = [] ∧
      (main args w).promptsJson = none ∧ (main args w).galleryWrite = none) ∧
    (args.count ≤ 0 → args.filename = none → args.outDir = none →
      strOptTruthy (get_api_key args.apiKey w.env) = true →
      (main args w).outcome = .typeError) := by
  constructor
  · intro hc hod hk hin
    have h1 : ¬(1 < args.count ∧ strOptTruthy args.outDir = false) := by
      intro h
      omega
    have h2 : ¬(args.count = 1 ∧ strOptTruthy args.filename = false ∧
        strOptTruthy args.outDir = false) := by
      intro h
      omega
    have hd : outputDirSetup args w.timestamp =
        .ok (pathJoin (args.outDir.getD "") ("nano-banana-" ++ w.timestamp)) := by
      unfold outputDirSetup
      rw [if_pos hod]
    have hi : loadInputStage args w = .ok (false, args.resolution, []) := by
      unfold loadInputStage
      rw [if_neg (by rw [hin]; decide)]
    have hm := main_loop_eq args w _ false args.resolution [] h1 h2 hk hd hi
    rw [hm]
    dsimp only
    have hrange : List.range args.count.toNat = [] := by
      rw [Int.toNat_of_nonpos hc]
      rfl
    rw [hrange]
    rw [show (runIters (ctxOf args w (pathJoin (args.outDir.getD "") ("nano-banana-" ++ w.timestamp)) false args.resolution) w.responses []
      { stdout := [], stderr := [], requests := [], pngWrites := [], images := [] }) =
      ({ stdout := [], stderr := [], requests := [], pngWrites := [], images := [] }, false) from rfl]
    rw [if_neg (by decide), if_neg (by omega)]
    exact ⟨rfl, rfl, rfl, rfl, rfl, rfl, rfl⟩
  · intro hc hf hod hk
    have h1 : ¬(1 < args.count ∧ strOptTruthy args.outDir = false) := by
      intro h
      omega
    have h2 : ¬(args.count = 1 ∧ strOptTruthy args.filename = false ∧
        strOptTruthy args.outDir = false) := by
      intro h
      omega
    have hd : outputDirSetup args w.timestamp = .error () := by
      unfold outputDirSetup
      rw [if_neg (by rw [hod]; decide), hf]
    unfold main
    rw [if_neg h1, if_neg h2, if_neg (by rw [hk]; decide), hd]

def argsZeroOut : Args :=
  { prompt := "a cat", filename := none, inputImage := none,
    resolution := .r1K, aspectRatio := "1:1", count := 0, outDir := some "root",
    model := "m", apiKey := some "k", noGallery := false }

def argsZeroNone : Args :=
  { prompt := "a cat", filename := none, inputImage := none,
    resolution := .r1K, aspectRatio := "1:1", count := 0, outDir := none,
    model := "m", apiKey := some "k", noGallery := false }

theorem claim_C10_witness :
    ((main argsZeroOut worldSingle).outcome = .exit 0 ∧
     (main argsZeroOut worldSingle).dirsCreated =
       [pathJoin (argsZeroOut.outDir.getD "") ("nano-banana-" ++ worldSingle.timestamp)] ∧
     (main argsZeroOut worldSingle).requests = [] ∧
     (main argsZeroOut worldSingle).pngWrites = [] ∧
     (main argsZeroOut worldSingle).generatedImages = [] ∧
     (main argsZeroOut worldSingle).promptsJson = none ∧
     (main argsZeroOut worldSingle).galleryWrite = none) ∧
    (main argsZeroNone worldSingle).outcome = .typeError :=
  ⟨(claim_C10 argsZeroOut worldSingle).1 (by decide) rfl rfl rfl,
   (claim_C10 argsZeroNone worldSingle).2 (by decide) rfl rfl rfl⟩

/-- C5 (amended): every PNG write of an iteration targets that iteration's
single output path, and there is exactly one write per saved image entry, so
a successful generation leaves exactly one PNG file and an iteration that
saves no image writes no file; however, an iteration may fail after a saved
image (a later part raising), leaving that file on disk. -/
theorem claim_C5_amended (ctx : IterCtx) (i : Nat) (resp : Except String Response) :
    (∀ q ∈ (runIteration ctx i resp).writes, q = iterOutputPath ctx i) ∧
    (runIteration ctx i resp).writes.length = (runIteration ctx i resp).images.length ∧
    ((runIteration ctx i resp).images = [] → (runIteration ctx i resp).writes = []) := by
  obtain ⟨h1, h2⟩ := runIteration_writes ctx i resp
  refine ⟨h1, h2, ?_⟩
  intro h
  refine List.length_eq_zero.mp ?_
  rw [h2, h]
  rfl

theorem claim_C5_witness :
    (("out.png" : String) = iterOutputPath (ctxOf argsSingle worldSingle "." false Res.r1K) 0) ∧
    (runIteration (ctxOf argsSingle worldSingle "." false Res.r1K) 0
        (.ok ⟨[.inlineData (.ok .rgb)]⟩)).writes.length =
      (runIteration (ctxOf argsSingle worldSingle "." false Res.r1K) 0
        (.ok ⟨[.inlineData (.ok .rgb)]⟩)).images.length :=
  ⟨(claim_C5_amended (ctxOf argsSingle worldSingle "." false Res.r1K) 0
      (.ok ⟨[.inlineData (.ok .rgb)]⟩)).1 "out.png" (by decide),
   (claim_C5_amended (ctxOf argsSingle worldSingle "." false Res.r1K) 0
      (.ok ⟨[.inlineData (.ok .rgb)]⟩)).2.1⟩

def worldBadPart : World :=
  { env := none, timestamp := "20250101-120000", cwd := "/w",
    inputImage := .error "unused",
    responses := fun _ => .ok ⟨[.inlineData (.ok .rgb),
      .inlineData (.error "cannot identify image file")]⟩ }

theorem claim_C5_cex :
    (main argsSingle worldBadPart).outcome = .exit 1 ∧
    (main argsSingle worldBadPart).pngWrites = ["out.png"] :=
  ⟨rfl, rfl⟩

/-- C6 (amended): the timestamped `nano-banana-<timestamp>` subdirectory is
created and used as the output directory whenever an output directory is
supplied, for any count, single mode included; without one, the output
directory is the filename's parent; and in single mode every PNG write goes
to the caller's filename when absolute, to the filename resolved against the
output directory when relative, and to `image.png` inside the output
directory when no filename is given. -/
theorem claim_C6_amended (args : Args) (w : World) (od : String)
    (h1 : ¬(1 < args.count ∧ strOptTruthy args.outDir = false))
    (h2 : ¬(args.count = 1 ∧ strOptTruthy args.filename = false ∧
        strOptTruthy args.outDir = false))
    (hk : strOptTruthy (get_api_key args.apiKey w.env) = true)
    (hd : outputDirSetup args w.timestamp = .ok od) :
    (strOptTruthy args.outDir = true →
      od = pathJoin (args.outDir.getD "") ("nano-banana-" ++ w.timestamp)) ∧
    (strOptTruthy args.outDir = false →
      ∀ f, args.filename = some f → od = pathParent f) ∧
    (main args w).dirsCreated = [od] ∧
    (args.count = 1 → ∀ q ∈ (main args w).pngWrites,
      q = (if strOptTruthy args.filename = true then
            (if pathIsAbs (args.filename.getD "") = true then args.filename.getD ""
             else pathJoin od (args.filename.getD ""))
           else pathJoin od "image.png")) := by
  refine ⟨?_, ?_, ?_, ?_⟩
  · intro hod
    unfold outputDirSetup at hd
    rw [if_pos hod] at hd
    injection hd with h
    exact h.symm
  · intro hod f hf
    unfold outputDirSetup at hd
    rw [if_neg (by rw [hod]; decide), hf] at hd
    injection hd with h
    exact h.symm
  · cases hi : loadInputStage args w with
    | error e =>
        have hm : main args w = inputFailResult od e := by
          unfold main
          rw [if_neg h1, if_neg h2, if_neg (by rw [hk]; decide), hd, hi]
        rw [hm]
        rfl
    | ok trip =>
        obtain ⟨ed, oR, ls⟩ := trip
        have hm := main_loop_eq args w od ed oR ls h1 h2 hk hd hi
        rw [hm]
        dsimp only
        split
        · rfl
        · split
          · split
            · rfl
            · rfl
          · rfl
  · intro hc q hq
    cases hi : loadInputStage args w with
    | error e =>
        have hm : main args w = inputFailResult od e := by
          unfold main
          rw [if_neg h1, if_neg h2, if_neg (by rw [hk]; decide), hd, hi]
        rw [hm] at hq
        exact absurd hq (List.not_mem_nil q)
    | ok trip =>
        obtain ⟨ed, oR, ls⟩ := trip
        have hm := main_loop_eq args w od ed oR ls h1 h2 hk hd hi
        rw [hm] at hq
        dsimp only at hq
        have hq' : q ∈ (runIters (ctxOf args w od ed oR) w.responses
            (List.range args.count.toNat)
            { stdout := ls, stderr := [], requests := [], pngWrites := [], images := [] }).1.pngWrites := by
          revert hq
          split
          · exact fun hq => hq
          · split
            · split
              · exact fun hq => hq
              · exact fun hq => hq
            · exact fun hq => hq
        rcases runIters_writes_mem _ w.responses _ _ q hq' with h | ⟨j, hj⟩
        · simp at h
        · have hqe := (runIteration_writes _ j _).1 q hj
          rw [hqe]
          unfold iterOutputPath
          rw [if_neg (by simp [ctxOf, hc])]
          rfl

def argsC6 : Args :=
  { prompt := "a cat", filename := none, inputImage := none,
    resolution := .r1K, aspectRatio := "1:1", count := 1, outDir := some "root",
    model := "m", apiKey := some "k", noGallery := false }

def argsAbs : Args :=
  { prompt := "a cat", filename := some "/abs/out.png", inputImage := none,
    resolution := .r1K, aspectRatio := "1:1", count := 1, outDir := none,
    model := "m", apiKey := some "k", noGallery := false }

theorem claim_C6_cex :
    argsC6.count = 1 ∧
    (main argsC6 worldSingle).dirsCreated = ["root/nano-banana-20250101-120000"] ∧
    (main argsC6 worldSingle).pngWrites = ["root/nano-banana-20250101-120000/image.png"] :=
  ⟨rfl, rfl, rfl⟩

theorem claim_C6_witness :
    (("root/nano-banana-20250101-120000" : String) =
      pathJoin (argsC6.outDir.getD "") ("nano-banana-" ++ worldSingle.timestamp)) ∧
    (main argsC6 worldSingle).dirsCreated = ["root/nano-banana-20250101-120000"] ∧
    (("root/nano-banana-20250101-120000/image.png" : String) =
      (if strOptTruthy argsC6.filename = true then
        (if pathIsAbs (argsC6.filename.getD "") = true then argsC6.filename.getD ""
         else pathJoin "root/nano-banana-20250101-120000" (argsC6.filename.getD ""))
       else pathJoin "root/nano-banana-20250101-120000" "image.png")) ∧
    (("." : String) = pathParent "out.png") ∧
    (("out.png" : String) =
      (if strOptTruthy argsSingle.filename = true then
        (if pathIsAbs (argsSingle.filename.getD "") = true then argsSingle.filename.getD ""
         else pathJoin "." (argsSingle.filename.getD ""))
       else pathJoin "." "image.png")) ∧
    (("/abs/out.png" : String) =
      (if strOptTruthy argsAbs.filename = true then
        (if pathIsAbs (argsAbs.filename.getD "") = true then argsAbs.filename.getD ""
         else pathJoin "/abs" (argsAbs.filename.getD ""))
       else pathJoin "/abs" "image.png")) :=
  ⟨(claim_C6_amended argsC6 worldSingle "root/nano-banana-20250101-120000"
      (by decide) (by decide) rfl rfl).1 rfl,
   (claim_C6_amended argsC6 worldSingle "root/nano-banana-20250101-120000"
      (by decide) (by decide) rfl rfl).2.2.1,
   (claim_C6_amended argsC6 worldSingle "root/nano-banana-20250101-120000"
      (by decide) (by decide) rfl rfl).2.2.2 rfl
     "root/nano-banana-20250101-120000/image.png" (by decide),
   (claim_C6_amended argsSingle worldSingle "." (by decide) (by decide) rfl rfl).2.1
     rfl "out.png" rfl,
   (claim_C6_amended argsSingle worldSingle "." (by decide) (by decide) rfl rfl).2.2.2
     rfl "out.png" (by decide),
   (claim_C6_amended argsAbs worldSingle "/abs" (by decide) (by decide) rfl rfl).2.2.2
     rfl "/abs/out.png" (by decide)⟩

/-- C7 (amended): for every batch run in which k images are successfully
saved with k at least 1 (k equals the number of successful remote calls only
when each successful response carries exactly one image part), the process
exits 0, prints a final line reporting `Generated k/n images in <dir>`, and
writes `prompts.json` as an array of exactly k objects, one per saved image
in generation order, each carrying filename, prompt, resolution, aspect
ratio, model and the optional model text. -/
theorem claim_C7_amended (args : Args) (w : World) (od : String) (ed : Bool) (oR : Res)
    (ls : List String)
    (hc : 1 < args.count)
    (hod : strOptTruthy args.outDir = true)
    (hk : strOptTruthy (get_api_key args.apiKey w.env) = true)
    (hd : outputDirSetup args w.timestamp = .ok od)
    (hi : loadInputStage args w = .ok (ed, oR, ls))
    (hne : (main args w).generatedImages ≠ []) :
    (main args w).outcome = .exit 0 ∧
    (main args w).stdout.getLast? =
      some ("\nGenerated " ++ toString (main args w).generatedImages.length ++ "/" ++
        toString args.count ++ " images in " ++ od) ∧
    (main args w).promptsJson =
      some (pathJoin od "prompts.json", (main args w).generatedImages.map toPromptEntry) := by
  have h1 : ¬(1 < args.count ∧ strOptTruthy args.outDir = false) := by
    intro h
    rw [hod] at h
    exact absurd h.2 (by decide)
  have h2 : ¬(args.count = 1 ∧ strOptTruthy args.filename = false ∧
      strOptTruthy args.outDir = false) := by
    intro h
    rw [hod] at h
    exact absurd h.2.2 (by decide)
  have hm := main_loop_eq args w od ed oR ls h1 h2 hk hd hi
  rw [hm] at hne ⊢
  dsimp only at hne ⊢
  have hcne : (ctxOf args w od ed oR).count ≠ 1 := by
    simp only [ctxOf]
    omega
  have hnoexit := runIters_no_exit (ctxOf args w od ed oR) w.responses hcne
    (List.range args.count.toNat)
    { stdout := ls, stderr := [], requests := [], pngWrites := [], images := [] }
  rw [hnoexit, if_neg (by decide), if_pos hc] at hne ⊢
  cases hcase : (runIters (ctxOf args w od ed oR) w.responses
      (List.range args.count.toNat)
      { stdout := ls, stderr := [], requests := [], pngWrites := [], images := [] }).1.images with
  | nil =>
      rw [hcase, if_pos rfl] at hne
      exact absurd (by simp [batchFailResult, hcase]) hne
  | cons g gs =>
      rw [if_neg (by simp)]
      refine ⟨rfl, ?_, ?_⟩
      · rw [batchOkResult]
        dsimp only
        rw [List.getLast?_concat]
      · rfl

theorem claim_C7_witness :
    (main argsBatch worldBatch).outcome = .exit 0 ∧
    (main argsBatch worldBatch).stdout.getLast? =
      some ("\nGenerated " ++ toString (main argsBatch worldBatch).generatedImages.length ++
        "/" ++ toString argsBatch.count ++ " images in " ++
        "root/nano-banana-20250101-120000") ∧
    (main argsBatch worldBatch).promptsJson =
      some (pathJoin "root/nano-banana-20250101-120000" "prompts.json",
        (main argsBatch worldBatch).generatedImages.map toPromptEntry) :=
  claim_C7_amended argsBatch worldBatch "root/nano-banana-20250101-120000" false .r1K []
    (by decide) rfl rfl rfl rfl (by decide)

def worldC7 : World :=
  { env := none, timestamp := "20250101-120000", cwd := "/w",
    inputImage := .error "unused",
    responses := fun i => if i = 0 then
      .ok ⟨[.inlineData (.ok .rgb), .inlineData (.ok .rgb)]⟩
    else .error "boom" }

theorem claim_C7_cex :
    respOk (worldC7.responses 0) = true ∧ respOk (worldC7.responses 1) = false ∧
    (main argsBatch worldC7).outcome = .exit 0 ∧
    (main argsBatch worldC7).promptsJson.map (fun pr => pr.2.length) = some 2 ∧
    (main argsBatch worldC7).stdout.getLast? =
      some "\nGenerated 2/2 images in root/nano-banana-20250101-120000" :=
  ⟨rfl, rfl, rfl, rfl, rfl⟩

theorem processParts_modelText (mk : Option String → GeneratedImage) (p : String) :
    ∀ (l : List Part) (acc : PartsAcc), partsClean l = true →
      (processParts mk p l acc).modelText = lastTextFrom acc.modelText l := by
  intro l
  induction l with
  | nil => intro acc _; rfl
  | cons hd tl ih =>
    intro acc hc
    cases hd with
    | text s =>
        rw [processParts_text]
        exact ih _ (partsClean_tail hc)
    | inlineData d =>
        cases d with
        | error e => exact absurd hc partsClean_not_bad
        | ok m =>
            rw [processParts_good]
            exact ih _ (partsClean_tail hc)

/-- C8 (amended): text parts are recorded with last-one-wins, and each saved
image stores in its metadata the most recent text part preceding that image
part in the response's part order (none when no text precedes it) — not
necessarily the response's final recorded text. -/
theorem claim_C8_amended (mk : Option String → GeneratedImage) (p : String)
    (pre post : List Part) (m : ImgMode) (hclean : partsClean pre = true) :
    (((processParts mk p (pre ++ Part.inlineData (ImgData.ok m) :: post) initAcc).images)[pre.countP (fun q => isOkImagePart q)]? =
      some (mk (lastText pre))) ∧
    (partsClean post = true →
      (processParts mk p (pre ++ Part.inlineData (ImgData.ok m) :: post) initAcc).modelText =
        lastText (pre ++ Part.inlineData (ImgData.ok m) :: post)) := by
  constructor
  · have h := processParts_image_text mk p post m pre initAcc hclean rfl
    simpa [initAcc, lastText] using h
  · intro hpost
    have hcl : partsClean (pre ++ Part.inlineData (ImgData.ok m) :: post) = true := by
      rw [partsClean, List.all_append, List.all_cons, Bool.and_eq_true, Bool.and_eq_true]
      rw [partsClean] at hclean hpost
      exact ⟨hclean, rfl, hpost⟩
    exact processParts_modelText mk p _ initAcc hcl

def mkW : Option String → GeneratedImage := fun mt =>
  { filename := "f", path := "/f", prompt := "p", resolution := .r1K,
    aspectRatio := "1:1", model := "m", modelText := mt }

theorem claim_C8_witness :
    (((processParts mkW "out.png"
        ([Part.text "a", Part.inlineData (ImgData.ok ImgMode.rgb), Part.text "b"] ++
          Part.inlineData (ImgData.ok ImgMode.rgb) :: [Part.text "z"]) initAcc).images)[([Part.text "a", Part.inlineData (ImgData.ok ImgMode.rgb), Part.text "b"].countP (fun q => isOkImagePart q))]? =
      some (mkW (lastText [Part.text "a", Part.inlineData (ImgData.ok ImgMode.rgb), Part.text "b"]))) ∧
    (processParts mkW "out.png"
        ([Part.text "a", Part.inlineData (ImgData.ok ImgMode.rgb), Part.text "b"] ++
          Part.inlineData (ImgData.ok ImgMode.rgb) :: [Part.text "z"]) initAcc).modelText =
      lastText ([Part.text "a", Part.inlineData (ImgData.ok ImgMode.rgb), Part.text "b"] ++
        Part.inlineData (ImgData.ok ImgMode.rgb) :: [Part.text "z"]) :=
  ⟨(claim_C8_amended mkW "out.png"
      [Part.text "a", Part.inlineData (ImgData.ok ImgMode.rgb), Part.text "b"]
      [Part.text "z"] ImgMode.rgb (by decide)).1,
   (claim_C8_amended mkW "out.png"
      [Part.text "a", Part.inlineData (ImgData.ok ImgMode.rgb), Part.text "b"]
      [Part.text "z"] ImgMode.rgb (by decide)).2 (by decide)⟩

theorem claim_C8_cex :
    (processParts mkW "out.png"
      [Part.inlineData (ImgData.ok ImgMode.rgb), Part.text "T"] initAcc).modelText =
        some "T" ∧
    (processParts mkW "out.png"
      [Part.inlineData (ImgData.ok ImgMode.rgb), Part.text "T"] initAcc).images.map
        (fun g => g.modelText) = [none] :=
  ⟨rfl, rfl⟩

theorem escChar_no_markup (x c : Char) (hc : c ∈ (escChar x).data) :
    c ≠ '<' ∧ c ≠ '>' ∧ c ≠ '"' := by
  unfold escChar at hc
  split at hc
  · have h : c ∈ ['&', 'a', 'm', 'p', ';'] := hc
    fin_cases h <;> exact ⟨by decide, by decide, by decide⟩
  · split at hc
    · have h : c ∈ ['&', 'l', 't', ';'] := hc
      fin_cases h <;> exact ⟨by decide, by decide, by decide⟩
    · split at hc
      · have h : c ∈ ['&', 'g', 't', ';'] := hc
        fin_cases h <;> exact ⟨by decide, by decide, by decide⟩
      · split at hc
        · have h : c ∈ ['&', 'q', 'u', 'o', 't', ';'] := hc
          fin_cases h <;> exact ⟨by decide, by decide, by decide⟩
        · split at hc
          · have h : c ∈ ['&', '#', 'x', '2', '7', ';'] := hc
            fin_cases h <;> exact ⟨by decide, by decide, by decide⟩
          · rename_i hamp hlt hgt hquot hapos
            have h : c ∈ [x] := hc
            rw [List.mem_singleton] at h
            subst h
            exact ⟨hlt, hgt, hquot⟩

theorem escapeChars_no_markup :
    ∀ (l : List Char) (c : Char), c ∈ (escapeChars l).data →
      c ≠ '<' ∧ c ≠ '>' ∧ c ≠ '"' := by
  intro l
  induction l with
  | nil => intro c hc; exact absurd hc (List.not_mem_nil c)
  | cons x xs ih =>
    intro c hc
    rw [show escapeChars (x :: xs) = escChar x ++ escapeChars xs from rfl,
      String.data_append] at hc
    rcases List.mem_append.mp hc with h | h
    · exact escChar_no_markup x c h
    · exact ih c h

theorem htmlEscape_no_markup (s : String) (c : Char) (hc : c ∈ (htmlEscape s).data) :
    c ≠ '<' ∧ c ≠ '>' ∧ c ≠ '"' :=
  escapeChars_no_markup s.data c hc

/-- C9: all text interpolated into a gallery card — the filename, the
truncated prompt used as alt text, the full prompt, the resolution, and the
model — is HTML-escaped, so none of it can contain a raw `<`, `>` or `"` and
prompts cannot inject markup into `index.html`. -/
theorem claim_C9 (img : GalleryImage) :
    ∀ piece ∈ galleryPieces img, ∀ c ∈ piece.data,
      c ≠ '<' ∧ c ≠ '>' ∧ c ≠ '"' := by
  intro piece hp c hc
  simp only [galleryPieces, List.mem_cons, List.not_mem_nil, or_false] at hp
  rcases hp with rfl | rfl | rfl | rfl | rfl
  · exact htmlEscape_no_markup _ c hc
  · rw [promptPreview, String.data_append] at hc
    rcases List.mem_append.mp hc with h' | h'
    · exact htmlEscape_no_markup _ c h'
    · revert h'
      split
      · intro h'
        have h : c ∈ ['.', '.', '.'] := h'
        fin_cases h <;> exact ⟨by decide, by decide, by decide⟩
      · intro h'
        exact absurd h' (List.not_mem_nil c)
  · exact htmlEscape_no_markup _ c hc
  · exact htmlEscape_no_markup _ c hc
  · exact htmlEscape_no_markup _ c hc

theorem claim_C9_witness :
    ('&' : Char) ≠ '<' ∧ ('&' : Char) ≠ '>' ∧ ('&' : Char) ≠ '"' :=
  claim_C9 { filename := "f.png", prompt := "a<b&c", resolution := "1K", model := "m" }
    (htmlEscape "a<b&c") (by decide) '&' (by decide)

end NanoBanana
